import Mathlib

/-!
Verification of the `SineWavePlotter` widget from `qt_gui.py`.

The program keeps one floating-point state variable `x` (the upper bound of
the plotted domain) and synchronizes four presentation surfaces with it: a
slider, a numeric text field, a result label and a plotted sine curve.

Modelling conventions:
* Python floats are idealized as real numbers (`ℝ`).
* `int(r)` (Python truncation toward zero) is `pyInt`.
* Qt's `QSlider.setValue` clamps its argument to the configured range
  `[1, SLIDER_MAX]`, writes the new position, and — because
  `slider.valueChanged` is connected to `_on_slider_changed`
  (qt_gui.py line 91) — synchronously re-enters that handler whenever the
  position actually changed.  This synchronous signal cascade is modelled by
  the fuel-indexed `setValueSignal`; the nesting depth is provably at most
  one because the nested `setValue` always finds the position just written
  (`setValueSignal_fuel_irrelevant`), so fuel 1 is the exact fixpoint
  semantics.
* The text field's content is abstracted by its parse result: user-typed
  text is `FieldText.typed p` where `p : Option ℝ` is the result of
  Python's `float(...)` (`none` on `ValueError`), and program-written text
  `f"\x7bv:.2f\x7d"` is `FieldText.formatted v`.
* The result label stores the two numbers it displays (`labelArg` for the
  `\x7bv:.2f\x7d` argument and `labelVal` for the `\x7bsin v:.4f\x7d` result);
  "formatted to n decimals prints d" is formalized as
  `round (r * 10 ^ n) = d`.
* `numpy.linspace a b 1000` is `linspace a b 1000`, the 1000 points
  `a + (b - a) * i / 999`.
-/

set_option maxRecDepth 4000
set_option maxHeartbeats 1000000

/-- Python `int(r)`: truncation toward zero. -/
noncomputable def pyInt (r : ℝ) : ℤ :=
  if 0 ≤ r then ⌊r⌋ else ⌈r⌉

/-- `self.SLIDER_SCALE_FACTOR = 10` (qt_gui.py line 20). -/
def SLIDER_SCALE_FACTOR : ℝ := 10

/-- `self.X_MAX_DEFAULT = 4 * np.pi` (qt_gui.py line 19). -/
noncomputable def X_MAX_DEFAULT : ℝ := 4 * Real.pi

/-- `self.SLIDER_MAX = int(self.X_MAX_DEFAULT * self.SLIDER_SCALE_FACTOR * 2)`
(qt_gui.py line 21). -/
noncomputable def SLIDER_MAX : ℤ :=
  pyInt (X_MAX_DEFAULT * SLIDER_SCALE_FACTOR * 2)

/-- The clamping part of Qt `QSlider.setValue` after `setRange(1, SLIDER_MAX)`
(qt_gui.py line 71): the requested position is bounded into the range. -/
noncomputable def sliderSetValue (p : ℤ) : ℤ :=
  max 1 (min SLIDER_MAX p)

/-- Content of the `QLineEdit`, abstracted by parse result: either text typed
by the user (with the result of `float(...)` on it) or text written by the
program via `setText(f"\x7bself.x:.2f\x7d")`. -/
inductive FieldText where
  | typed (parsed : Option ℝ)
  | formatted (v : ℝ)

/-- Data handed to the matplotlib axes by `update_plot` (qt_gui.py 137-146):
the sampled x-values, their sines, and the upper bound shown in the title
`f'sin(x): 0 to \x7bself.x:.2f\x7d'`. -/
structure PlotData where
  xs : List ℝ
  ys : List ℝ
  titleUpper : ℝ

/-- State of the `SineWavePlotter` widget: the value `self.x` plus the four
presentation surfaces. -/
structure GuiState where
  x : ℝ
  sliderPos : ℤ
  fieldText : FieldText
  labelArg : ℝ
  labelVal : ℝ
  plot : PlotData

/-- `np.linspace a b n`: `n` evenly spaced samples from `a` to `b`, both
endpoints included. -/
noncomputable def linspace (a b : ℝ) (n : ℕ) : List ℝ :=
  (List.range n).map fun i : ℕ => a + (b - a) * (i : ℝ) / ((n : ℝ) - 1)

/-- `update_plot` (qt_gui.py 137-146): sample `linspace(0, self.x, 1000)`,
apply `np.sin`, and draw with title upper bound `self.x`. -/
noncomputable def updatePlot (s : GuiState) : GuiState :=
  let xvals := linspace 0 s.x 1000
  { s with plot := ⟨xvals, xvals.map Real.sin, s.x⟩ }

/-- The trailing `setText` and result-label lines of `_update_ui_values`
(qt_gui.py 134-135): both read the current `self.x`. -/
noncomputable def refreshTextAndLabel (s : GuiState) : GuiState :=
  { s with fieldText := FieldText.formatted s.x, labelArg := s.x,
           labelVal := Real.sin s.x }

/-- Qt `QSlider.setValue p` with its synchronous signal semantics: clamp `p`
into the range; if the bounded value differs from the current position, write
it and emit `valueChanged`, which re-enters `_on_slider_changed`
(connected at qt_gui.py line 91).  The re-entered handler runs its full body
(qt_gui.py 112-115): `self.x = value / SLIDER_SCALE_FACTOR`, then
`_update_ui_values` (whose own `setValue` recurses here), then
`update_plot`.  The fuel argument bounds the recursion; by
`setValueSignal_fuel_irrelevant`, any fuel of at least 1 yields the same
state, because the nested `setValue` always receives the position just
written and so emits nothing. -/
noncomputable def setValueSignal : ℕ → GuiState → ℤ → GuiState
  | 0, s, p => { s with sliderPos := sliderSetValue p }
  | n + 1, s, p =>
    if sliderSetValue p = s.sliderPos then s
    else
      updatePlot (refreshTextAndLabel
        (setValueSignal n
          { s with sliderPos := sliderSetValue p,
                   x := (sliderSetValue p : ℝ) / SLIDER_SCALE_FACTOR }
          (pyInt ((sliderSetValue p : ℝ) / SLIDER_SCALE_FACTOR * SLIDER_SCALE_FACTOR))))

/-- `_update_ui_values` (qt_gui.py 132-135):
`self.slider.setValue(int(self.x * self.SLIDER_SCALE_FACTOR))` — which may
synchronously re-enter `_on_slider_changed` and overwrite `self.x` — then
`setText(f"\x7bself.x:.2f\x7d")` and the result label, both reading whatever
`self.x` is after the `setValue` call returns. -/
noncomputable def updateUIValues (s : GuiState) : GuiState :=
  refreshTextAndLabel (setValueSignal 1 s (pyInt (s.x * SLIDER_SCALE_FACTOR)))

/-- `_on_slider_changed` (qt_gui.py 112-115), fired after the user moves the
slider to tick `t` (so the slider's position is already `t` when the handler
runs): `self.x = t / self.SLIDER_SCALE_FACTOR`, then refresh the UI surfaces
and the plot. -/
noncomputable def onSliderChanged (s : GuiState) (t : ℤ) : GuiState :=
  updatePlot (updateUIValues
    { s with x := (t : ℝ) / SLIDER_SCALE_FACTOR, sliderPos := t })

/-- `_on_input_field_changed` (qt_gui.py 117-125), fired on editing-finished
after the user typed text whose `float(...)` parse is `inp`.  On a parse
error (`inp = none`) the handler only reverts the surfaces via
`_update_ui_values`.  On a successful parse `val`, it updates the state only
when `val > 0`; otherwise it does nothing (the typed text stays in the
field). -/
noncomputable def onInputFieldChanged (s : GuiState) (inp : Option ℝ) : GuiState :=
  let s1 := { s with fieldText := FieldText.typed inp }
  match inp with
  | none => updateUIValues s1
  | some val => if 0 < val then updatePlot (updateUIValues { s1 with x := val }) else s1

/-- `_on_reset_clicked` (qt_gui.py 127-130): `self.x = self.X_MAX_DEFAULT`,
then refresh the UI surfaces and the plot. -/
noncomputable def onResetClicked (s : GuiState) : GuiState :=
  updatePlot (updateUIValues { s with x := X_MAX_DEFAULT })

/-- State after `__init__` (qt_gui.py 13-29): `self.x = X_MAX_DEFAULT`,
`_setup_ui` fills the field with `f"\x7bself.x:.2f\x7d"`, sets the slider to
`int(self.x * SLIDER_SCALE_FACTOR)` and the label to the sine of `x`; then
`update_plot()` draws the first curve.  The signals are connected only after
`_setup_ui` returns (line 28), so these initial widget writes emit
nothing. -/
noncomputable def initState : GuiState :=
  updatePlot
    { x := X_MAX_DEFAULT,
      sliderPos := sliderSetValue (pyInt (X_MAX_DEFAULT * SLIDER_SCALE_FACTOR)),
      fieldText := FieldText.formatted X_MAX_DEFAULT,
      labelArg := X_MAX_DEFAULT,
      labelVal := Real.sin X_MAX_DEFAULT,
      plot := ⟨[], [], 0⟩ }

/-- The three user-triggered operations. -/
inductive Op where
  | fromSlider (t : ℤ)
  | fromText (inp : Option ℝ)
  | reset

/-- Dispatch one operation to its handler. -/
noncomputable def applyOp (s : GuiState) : Op → GuiState
  | Op.fromSlider t => onSliderChanged s t
  | Op.fromText inp => onInputFieldChanged s inp
  | Op.reset => onResetClicked s

/-- A slider event can only carry a tick inside the configured range
`[1, SLIDER_MAX]`; the other two operations are always deliverable. -/
def Op.valid : Op → Prop
  | Op.fromSlider t => 1 ≤ t ∧ t ≤ SLIDER_MAX
  | Op.fromText _ => True
  | Op.reset => True

/-- Run a sequence of operations from the freshly initialized widget. -/
noncomputable def runOps (ops : List Op) : GuiState :=
  ops.foldl applyOp initState

/-- Parsing back the text written by `setText(f"\x7br:.2f\x7d")`: the
2-decimal rendering of `r` denotes `round (r * 100) / 100`. -/
noncomputable def format2dec (r : ℝ) : ℝ :=
  (round (r * 100) : ℝ) / 100

/-- The program's slider/value coupling: the slider position equals the
clamped integer scaling of the current value.  It holds after
initialization and is preserved by every handler (`runOps_consistent`). -/
def sliderConsistent (s : GuiState) : Prop :=
  sliderSetValue (pyInt (s.x * SLIDER_SCALE_FACTOR)) = s.sliderPos

/-- A concrete widget state (value 1, slider tick 10) used to instantiate
universally quantified theorems. -/
noncomputable def testState : GuiState :=
  { x := 1,
    sliderPos := 10,
    fieldText := FieldText.formatted 1,
    labelArg := 1,
    labelVal := Real.sin 1,
    plot := ⟨[], [], 0⟩ }

/- Basic facts about the embedding. -/

theorem pyInt_of_nonneg {r : ℝ} (h : 0 ≤ r) : pyInt r = ⌊r⌋ := by
  simp [pyInt, h]

theorem pyInt_intCast (q : ℤ) : pyInt ((q : ℝ)) = q := by
  unfold pyInt
  split <;> simp

theorem SLIDER_MAX_one_le : (1 : ℤ) ≤ SLIDER_MAX := by
  have h0 : (0 : ℝ) ≤ X_MAX_DEFAULT * SLIDER_SCALE_FACTOR * 2 := by
    unfold X_MAX_DEFAULT SLIDER_SCALE_FACTOR
    nlinarith [Real.pi_pos]
  rw [SLIDER_MAX, pyInt_of_nonneg h0]
  rw [Int.le_floor]
  unfold X_MAX_DEFAULT SLIDER_SCALE_FACTOR
  push_cast
  nlinarith [Real.pi_gt_three]

theorem SLIDER_MAX_eq : SLIDER_MAX = 251 := by
  have hlo := Real.pi_gt_d6
  have hhi := Real.pi_lt_d2
  have h0 : (0 : ℝ) ≤ X_MAX_DEFAULT * SLIDER_SCALE_FACTOR * 2 := by
    unfold X_MAX_DEFAULT SLIDER_SCALE_FACTOR
    nlinarith [Real.pi_pos]
  rw [SLIDER_MAX, pyInt_of_nonneg h0]
  have h : X_MAX_DEFAULT * SLIDER_SCALE_FACTOR * 2 = 80 * Real.pi := by
    unfold X_MAX_DEFAULT SLIDER_SCALE_FACTOR; ring
  rw [h]
  rw [Int.floor_eq_iff]
  constructor <;> [skip; skip] <;> push_cast <;> nlinarith

theorem sliderSetValue_idem (p : ℤ) :
    sliderSetValue (sliderSetValue p) = sliderSetValue p := by
  have := SLIDER_MAX_one_le
  unfold sliderSetValue
  omega

theorem sliderSetValue_of_mem {q : ℤ} (h1 : 1 ≤ q) (h2 : q ≤ SLIDER_MAX) :
    sliderSetValue q = q := by
  unfold sliderSetValue
  omega

theorem scale_div_mul (q : ℤ) :
    (q : ℝ) / SLIDER_SCALE_FACTOR * SLIDER_SCALE_FACTOR = (q : ℝ) := by
  rw [SLIDER_SCALE_FACTOR]
  field_simp

theorem initState_x : initState.x = 4 * Real.pi := by
  simp [initState, updatePlot, X_MAX_DEFAULT]

/- Signal-emission semantics of the slider write. -/

theorem setValueSignal_still (n : ℕ) (s : GuiState) (p : ℤ)
    (h : sliderSetValue p = s.sliderPos) : setValueSignal n s p = s := by
  cases n with
  | zero =>
    simp only [setValueSignal]
    rw [h]
  | succ n =>
    simp only [setValueSignal]
    rw [if_pos h]

theorem setValueSignal_fire (n : ℕ) (s : GuiState) (p : ℤ)
    (h : ¬ sliderSetValue p = s.sliderPos) :
    setValueSignal (n + 1) s p =
      updatePlot (refreshTextAndLabel
        { s with sliderPos := sliderSetValue p,
                 x := (sliderSetValue p : ℝ) / SLIDER_SCALE_FACTOR }) := by
  simp only [setValueSignal]
  rw [if_neg h]
  congr 1
  congr 1
  apply setValueSignal_still
  show sliderSetValue (pyInt ((sliderSetValue p : ℝ) / SLIDER_SCALE_FACTOR * SLIDER_SCALE_FACTOR)) =
    sliderSetValue p
  rw [scale_div_mul, pyInt_intCast, sliderSetValue_idem]

theorem setValueSignal_one_fire (s : GuiState) (p : ℤ)
    (h : ¬ sliderSetValue p = s.sliderPos) :
    setValueSignal 1 s p =
      updatePlot (refreshTextAndLabel
        { s with sliderPos := sliderSetValue p,
                 x := (sliderSetValue p : ℝ) / SLIDER_SCALE_FACTOR }) :=
  setValueSignal_fire 0 s p h

theorem setValueSignal_fuel_irrelevant (n : ℕ) (s : GuiState) (p : ℤ) :
    setValueSignal (n + 1) s p = setValueSignal 1 s p := by
  by_cases h : sliderSetValue p = s.sliderPos
  · rw [setValueSignal_still _ _ _ h, setValueSignal_still _ _ _ h]
  · rw [setValueSignal_fire _ _ _ h, setValueSignal_one_fire _ _ h]

theorem updateUIValues_still (s : GuiState)
    (h : sliderSetValue (pyInt (s.x * SLIDER_SCALE_FACTOR)) = s.sliderPos) :
    updateUIValues s = refreshTextAndLabel s := by
  unfold updateUIValues
  rw [setValueSignal_still 1 s _ h]

theorem updateUIValues_fire (s : GuiState)
    (h : ¬ sliderSetValue (pyInt (s.x * SLIDER_SCALE_FACTOR)) = s.sliderPos) :
    updateUIValues s =
      updatePlot (refreshTextAndLabel
        { s with
          sliderPos := sliderSetValue (pyInt (s.x * SLIDER_SCALE_FACTOR)),
          x := (sliderSetValue (pyInt (s.x * SLIDER_SCALE_FACTOR)) : ℝ) / SLIDER_SCALE_FACTOR }) := by
  unfold updateUIValues
  rw [setValueSignal_one_fire s _ h]
  rfl

/- Projection lemmas. -/

theorem updatePlot_x (s : GuiState) : (updatePlot s).x = s.x := rfl

theorem updatePlot_sliderPos (s : GuiState) : (updatePlot s).sliderPos = s.sliderPos := rfl

theorem updatePlot_labelVal (s : GuiState) : (updatePlot s).labelVal = s.labelVal := rfl

theorem updateUIValues_x_still (s : GuiState)
    (h : sliderSetValue (pyInt (s.x * SLIDER_SCALE_FACTOR)) = s.sliderPos) :
    (updateUIValues s).x = s.x := by
  rw [updateUIValues_still s h]
  rfl

theorem updateUIValues_x_fire (s : GuiState)
    (h : ¬ sliderSetValue (pyInt (s.x * SLIDER_SCALE_FACTOR)) = s.sliderPos) :
    (updateUIValues s).x =
      (sliderSetValue (pyInt (s.x * SLIDER_SCALE_FACTOR)) : ℝ) / SLIDER_SCALE_FACTOR := by
  rw [updateUIValues_fire s h]
  rfl

theorem updateUIValues_sliderPos (s : GuiState) :
    (updateUIValues s).sliderPos = sliderSetValue (pyInt (s.x * SLIDER_SCALE_FACTOR)) := by
  by_cases h : sliderSetValue (pyInt (s.x * SLIDER_SCALE_FACTOR)) = s.sliderPos
  · rw [updateUIValues_still s h]; exact h.symm
  · rw [updateUIValues_fire s h]; rfl

theorem updateUIValues_labelVal (s : GuiState) :
    (updateUIValues s).labelVal = Real.sin ((updateUIValues s).x) := by
  by_cases h : sliderSetValue (pyInt (s.x * SLIDER_SCALE_FACTOR)) = s.sliderPos
  · rw [updateUIValues_still s h]; rfl
  · rw [updateUIValues_fire s h]; rfl

/- The slider/value coupling invariant. -/

theorem snap_consistent (p : ℤ) :
    sliderSetValue (pyInt ((sliderSetValue p : ℝ) / SLIDER_SCALE_FACTOR * SLIDER_SCALE_FACTOR)) =
      sliderSetValue p := by
  rw [scale_div_mul, pyInt_intCast, sliderSetValue_idem]

theorem updateUIValues_consistent (s : GuiState) :
    sliderConsistent (updateUIValues s) := by
  unfold sliderConsistent
  by_cases h : sliderSetValue (pyInt (s.x * SLIDER_SCALE_FACTOR)) = s.sliderPos
  · rw [updateUIValues_still s h]
    exact h
  · rw [updateUIValues_fire s h]
    exact snap_consistent _

theorem init_consistent : sliderConsistent initState := by
  unfold sliderConsistent
  rfl

theorem applyOp_consistent (s : GuiState) (op : Op) (hs : sliderConsistent s) :
    sliderConsistent (applyOp s op) := by
  cases op with
  | fromSlider t =>
    show sliderConsistent (updatePlot (updateUIValues _))
    unfold sliderConsistent at *
    rw [updatePlot_x, updatePlot_sliderPos]
    exact updateUIValues_consistent
      { s with x := (t : ℝ) / SLIDER_SCALE_FACTOR, sliderPos := t }
  | fromText inp =>
    cases inp with
    | none =>
      show sliderConsistent (updateUIValues _)
      exact updateUIValues_consistent _
    | some v =>
      show sliderConsistent (onInputFieldChanged s (some v))
      by_cases hv : 0 < v
      · unfold sliderConsistent
        simp only [onInputFieldChanged]
        rw [if_pos hv]
        rw [updatePlot_x, updatePlot_sliderPos]
        exact updateUIValues_consistent _
      · unfold sliderConsistent at *
        simp only [onInputFieldChanged]
        rw [if_neg hv]
        exact hs
  | reset =>
    show sliderConsistent (updatePlot (updateUIValues _))
    unfold sliderConsistent
    rw [updatePlot_x, updatePlot_sliderPos]
    exact updateUIValues_consistent _

theorem runOps_consistent (ops : List Op) : sliderConsistent (runOps ops) := by
  have hgen : ∀ (l : List Op) (s : GuiState), sliderConsistent s →
      sliderConsistent (l.foldl applyOp s) := by
    intro l
    induction l with
    | nil => intro s hs; exact hs
    | cons op rest ih =>
      intro s hs
      exact ih (applyOp s op) (applyOp_consistent s op hs)
  exact hgen ops initState init_consistent

/- Positivity of the value. -/

theorem updateUIValues_x_pos (s : GuiState) (h : 0 < s.x) : 0 < (updateUIValues s).x := by
  by_cases hc : sliderSetValue (pyInt (s.x * SLIDER_SCALE_FACTOR)) = s.sliderPos
  · rw [updateUIValues_x_still s hc]; exact h
  · rw [updateUIValues_x_fire s hc]
    have h1 : 1 ≤ sliderSetValue (pyInt (s.x * SLIDER_SCALE_FACTOR)) := by
      have := SLIDER_MAX_one_le
      unfold sliderSetValue
      omega
    have h2 : (1 : ℝ) ≤ (sliderSetValue (pyInt (s.x * SLIDER_SCALE_FACTOR)) : ℝ) := by
      exact_mod_cast h1
    exact div_pos (by linarith) (by rw [SLIDER_SCALE_FACTOR]; norm_num)

theorem applyOp_pos (s : GuiState) (op : Op) (hs : 0 < s.x) (hv : op.valid) :
    0 < (applyOp s op).x := by
  cases op with
  | fromSlider t =>
    show 0 < (updatePlot (updateUIValues
      { s with x := (t : ℝ) / SLIDER_SCALE_FACTOR, sliderPos := t })).x
    rw [updatePlot_x]
    apply updateUIValues_x_pos
    show 0 < (t : ℝ) / SLIDER_SCALE_FACTOR
    have h1 : (1 : ℝ) ≤ (t : ℝ) := by exact_mod_cast hv.1
    rw [SLIDER_SCALE_FACTOR]
    exact div_pos (by linarith) (by norm_num)
  | fromText inp =>
    cases inp with
    | none =>
      show 0 < (updateUIValues { s with fieldText := FieldText.typed none }).x
      exact updateUIValues_x_pos _ hs
    | some v =>
      show 0 < (onInputFieldChanged s (some v)).x
      by_cases h : 0 < v
      · simp only [onInputFieldChanged]
        rw [if_pos h, updatePlot_x]
        exact updateUIValues_x_pos _ h
      · simp only [onInputFieldChanged]
        rw [if_neg h]
        exact hs
  | reset =>
    show 0 < (updatePlot (updateUIValues { s with x := X_MAX_DEFAULT })).x
    rw [updatePlot_x]
    apply updateUIValues_x_pos
    show 0 < X_MAX_DEFAULT
    rw [X_MAX_DEFAULT]
    positivity

theorem foldl_applyOp_pos (ops : List Op) (s : GuiState) (hs : 0 < s.x)
    (hv : ∀ op ∈ ops, op.valid) : 0 < (ops.foldl applyOp s).x := by
  induction ops generalizing s with
  | nil => exact hs
  | cons op rest ih =>
    exact ih (applyOp s op) (applyOp_pos s op hs (hv op (List.mem_cons_self op rest)))
      (fun o ho => hv o (List.mem_cons_of_mem op ho))

/- Sampling lemmas. -/

theorem linspace_length (a b : ℝ) (n : ℕ) : (linspace a b n).length = n := by
  rw [linspace, List.length_map, List.length_range]

theorem linspace_getD (a b d : ℝ) (n i : ℕ) (h : i < n) :
    (linspace a b n).getD i d = a + (b - a) * (i : ℝ) / ((n : ℝ) - 1) := by
  rw [linspace, List.getD_eq_getElem?_getD, List.getElem?_map, List.getElem?_range h]
  rfl

theorem linspace_map_getD (f : ℝ → ℝ) (a b d : ℝ) (n i : ℕ) (h : i < n) :
    ((linspace a b n).map f).getD i d = f (a + (b - a) * (i : ℝ) / ((n : ℝ) - 1)) := by
  rw [linspace, List.map_map, List.getD_eq_getElem?_getD, List.getElem?_map,
    List.getElem?_range h]
  rfl

/- Concrete tick computations. -/

theorem pyInt_forty_pi : pyInt (X_MAX_DEFAULT * SLIDER_SCALE_FACTOR) = 125 := by
  have h0 : (0 : ℝ) ≤ X_MAX_DEFAULT * SLIDER_SCALE_FACTOR := by
    unfold X_MAX_DEFAULT SLIDER_SCALE_FACTOR
    nlinarith [Real.pi_pos]
  rw [pyInt_of_nonneg h0]
  have h : X_MAX_DEFAULT * SLIDER_SCALE_FACTOR = 40 * Real.pi := by
    unfold X_MAX_DEFAULT SLIDER_SCALE_FACTOR; ring
  rw [h, Int.floor_eq_iff]
  constructor <;> [skip; skip] <;> push_cast <;> nlinarith [Real.pi_gt_d6, Real.pi_lt_d2]

theorem sliderSetValue_125 : sliderSetValue 125 = 125 :=
  sliderSetValue_of_mem (by norm_num) (by rw [SLIDER_MAX_eq]; norm_num)

theorem init_sliderPos : initState.sliderPos = 125 := by
  show sliderSetValue (pyInt (X_MAX_DEFAULT * SLIDER_SCALE_FACTOR)) = 125
  rw [pyInt_forty_pi, sliderSetValue_125]

theorem pyInt_628 : pyInt ((6.28 : ℝ) * SLIDER_SCALE_FACTOR) = 62 := by
  rw [SLIDER_SCALE_FACTOR, pyInt_of_nonneg (by norm_num), Int.floor_eq_iff]
  norm_num

theorem slider_628 : sliderSetValue (pyInt ((6.28 : ℝ) * SLIDER_SCALE_FACTOR)) = 62 := by
  rw [pyInt_628]
  exact sliderSetValue_of_mem (by norm_num) (by rw [SLIDER_MAX_eq]; norm_num)

theorem slider_10 :
    sliderSetValue (pyInt (((10 : ℤ) : ℝ) / SLIDER_SCALE_FACTOR * SLIDER_SCALE_FACTOR)) = 10 := by
  rw [scale_div_mul, pyInt_intCast]
  exact sliderSetValue_of_mem (by norm_num) (by rw [SLIDER_MAX_eq]; norm_num)

/- Evaluation of the reset-after-slider scenario (the valueChanged feedback). -/

theorem r1_sliderPos : (runOps [Op.fromSlider 10]).sliderPos = 10 := by
  show (updatePlot (updateUIValues
    { initState with x := ((10 : ℤ) : ℝ) / SLIDER_SCALE_FACTOR, sliderPos := (10 : ℤ) })).sliderPos
    = 10
  rw [updatePlot_sliderPos, updateUIValues_sliderPos]
  exact slider_10

theorem reset_after_slider10_x : (onResetClicked (runOps [Op.fromSlider 10])).x = 12.5 := by
  have hc : ¬ sliderSetValue (pyInt (X_MAX_DEFAULT * SLIDER_SCALE_FACTOR)) =
      ({ runOps [Op.fromSlider 10] with x := X_MAX_DEFAULT } : GuiState).sliderPos := by
    rw [pyInt_forty_pi, sliderSetValue_125]
    rw [show ({ runOps [Op.fromSlider 10] with x := X_MAX_DEFAULT } : GuiState).sliderPos
        = (runOps [Op.fromSlider 10]).sliderPos from rfl, r1_sliderPos]
    norm_num
  show (updatePlot (updateUIValues { runOps [Op.fromSlider 10] with x := X_MAX_DEFAULT })).x = 12.5
  rw [updatePlot_x, updateUIValues_x_fire _ hc]
  rw [pyInt_forty_pi, sliderSetValue_125, SLIDER_SCALE_FACTOR]
  norm_num

theorem reset_after_slider10_sliderPos :
    (onResetClicked (runOps [Op.fromSlider 10])).sliderPos = 125 := by
  show (updatePlot (updateUIValues
    { runOps [Op.fromSlider 10] with x := X_MAX_DEFAULT })).sliderPos = 125
  rw [updatePlot_sliderPos, updateUIValues_sliderPos]
  show sliderSetValue (pyInt (X_MAX_DEFAULT * SLIDER_SCALE_FACTOR)) = 125
  rw [pyInt_forty_pi, sliderSetValue_125]

theorem reset_twice_after_slider10_x :
    (onResetClicked (onResetClicked (runOps [Op.fromSlider 10]))).x = X_MAX_DEFAULT := by
  have hc : sliderSetValue (pyInt (X_MAX_DEFAULT * SLIDER_SCALE_FACTOR)) =
      ({ onResetClicked (runOps [Op.fromSlider 10]) with x := X_MAX_DEFAULT } : GuiState).sliderPos := by
    rw [pyInt_forty_pi, sliderSetValue_125]
    rw [show ({ onResetClicked (runOps [Op.fromSlider 10]) with x := X_MAX_DEFAULT }
        : GuiState).sliderPos
        = (onResetClicked (runOps [Op.fromSlider 10])).sliderPos from rfl,
      reset_after_slider10_sliderPos]
  show (updatePlot (updateUIValues
    { onResetClicked (runOps [Op.fromSlider 10]) with x := X_MAX_DEFAULT })).x = X_MAX_DEFAULT
  rw [updatePlot_x, updateUIValues_x_still _ hc]

/- Round-trip tolerance of the 2-decimal display. -/

theorem snap_within_tolerance (X : ℝ) (hX : 0 < X) (P : ℤ)
    (hfpos : 0 < format2dec X)
    (hcons : sliderSetValue (pyInt (X * SLIDER_SCALE_FACTOR)) = P)
    (hfire : ¬ sliderSetValue (pyInt (format2dec X * SLIDER_SCALE_FACTOR)) = P) :
    |(sliderSetValue (pyInt (format2dec X * SLIDER_SCALE_FACTOR)) : ℝ) / SLIDER_SCALE_FACTOR - X|
      ≤ 0.005 := by
  rw [SLIDER_SCALE_FACTOR] at hcons hfire ⊢
  have hX10 : (0 : ℝ) ≤ X * 10 := by linarith
  have hpyX : pyInt (X * 10) = ⌊X * 10⌋ := pyInt_of_nonneg hX10
  have hF10 : (0 : ℝ) ≤ format2dec X * 10 := by linarith
  have hpyF : pyInt (format2dec X * 10) = ⌊format2dec X * 10⌋ := pyInt_of_nonneg hF10
  have hfval : format2dec X * 10 = (round (X * 100) : ℝ) / 10 := by
    rw [format2dec]; ring
  have hround := abs_sub_round (X * 100)
  have hrlo : -(1 / 2) ≤ X * 100 - (round (X * 100) : ℝ) := (abs_le.mp hround).1
  have hrhi : X * 100 - (round (X * 100) : ℝ) ≤ 1 / 2 := (abs_le.mp hround).2
  have hm1 : ((⌊X * 10⌋ : ℤ) : ℝ) ≤ X * 10 := Int.floor_le _
  have hm2 : X * 10 < ⌊X * 10⌋ + 1 := Int.lt_floor_add_one _
  have hm0 : (0 : ℤ) ≤ ⌊X * 10⌋ := Int.floor_nonneg.mpr hX10
  have hr10m : 10 * ⌊X * 10⌋ ≤ round (X * 100) := by
    have hcast : ((10 * ⌊X * 10⌋ : ℤ) : ℝ) < ((round (X * 100) + 1 : ℤ) : ℝ) := by
      push_cast
      nlinarith
    have := Int.cast_lt.mp hcast
    omega
  have hrUp : round (X * 100) ≤ 10 * ⌊X * 10⌋ + 10 := by
    have hcast : ((round (X * 100) : ℤ) : ℝ) < ((10 * ⌊X * 10⌋ + 11 : ℤ) : ℝ) := by
      push_cast
      nlinarith
    have := Int.cast_lt.mp hcast
    omega
  have hk1 : ⌊X * 10⌋ ≤ ⌊format2dec X * 10⌋ := by
    apply Int.le_floor.mpr
    rw [hfval]
    have : ((10 * ⌊X * 10⌋ : ℤ) : ℝ) ≤ ((round (X * 100) : ℤ) : ℝ) := by
      exact_mod_cast hr10m
    push_cast at this ⊢
    linarith
  have hk2 : ⌊format2dec X * 10⌋ ≤ ⌊X * 10⌋ + 1 := by
    have hle : format2dec X * 10 ≤ ((⌊X * 10⌋ + 1 : ℤ) : ℝ) := by
      rw [hfval]
      have : ((round (X * 100) : ℤ) : ℝ) ≤ ((10 * ⌊X * 10⌋ + 10 : ℤ) : ℝ) := by
        exact_mod_cast hrUp
      push_cast at this ⊢
      linarith
    have := Int.floor_le_floor hle
    rw [Int.floor_intCast] at this
    exact this
  rcases eq_or_lt_of_le hk1 with heq | hlt
  · exfalso
    apply hfire
    rw [hpyF, ← heq, ← hpyX, hcons]
  · have hk : ⌊format2dec X * 10⌋ = ⌊X * 10⌋ + 1 := by omega
    have hge : ((⌊X * 10⌋ + 1 : ℤ) : ℝ) ≤ format2dec X * 10 := by
      rw [← hk]
      exact Int.floor_le _
    have h100X : 10 * ((⌊X * 10⌋ : ℤ) : ℝ) + 9.5 ≤ X * 100 := by
      rw [hfval] at hge
      push_cast at hge
      nlinarith
    by_cases hbig : SLIDER_MAX ≤ ⌊X * 10⌋
    · exfalso
      apply hfire
      rw [hpyF, hk, ← hcons, hpyX]
      have hM := SLIDER_MAX_one_le
      unfold sliderSetValue
      omega
    · push_neg at hbig
      have hq : sliderSetValue (pyInt (format2dec X * 10)) = ⌊X * 10⌋ + 1 := by
        rw [hpyF, hk]
        exact sliderSetValue_of_mem (by omega) (by omega)
      rw [hq, abs_le]
      constructor
      · push_cast
        nlinarith
      · push_cast
        nlinarith

theorem roundtrip_aux (s : GuiState) (hx : 0 < s.x) (hcons : sliderConsistent s) :
    |(onInputFieldChanged s (some (format2dec s.x))).x - s.x| ≤ 0.005 := by
  by_cases hf : 0 < format2dec s.x
  · by_cases hc : sliderSetValue (pyInt (format2dec s.x * SLIDER_SCALE_FACTOR)) = s.sliderPos
    · have hxeq : (onInputFieldChanged s (some (format2dec s.x))).x = format2dec s.x := by
        simp only [onInputFieldChanged]
        rw [if_pos hf, updatePlot_x, updateUIValues_x_still _ hc]
      rw [hxeq, format2dec]
      have hr := abs_sub_round (s.x * 100)
      have heq2 : (round (s.x * 100) : ℝ) / 100 - s.x =
          -((s.x * 100 - round (s.x * 100)) / 100) := by ring
      rw [heq2, abs_neg, abs_div, abs_of_nonneg (by norm_num : (0 : ℝ) ≤ (100 : ℝ)),
        div_le_iff₀ (by norm_num : (0 : ℝ) < 100)]
      linarith
    · have hxeq : (onInputFieldChanged s (some (format2dec s.x))).x =
          (sliderSetValue (pyInt (format2dec s.x * SLIDER_SCALE_FACTOR)) : ℝ) /
            SLIDER_SCALE_FACTOR := by
        simp only [onInputFieldChanged]
        rw [if_pos hf, updatePlot_x, updateUIValues_x_fire _ hc]
      rw [hxeq]
      exact snap_within_tolerance s.x hx s.sliderPos hf hcons hc
  · have hxeq : (onInputFieldChanged s (some (format2dec s.x))).x = s.x := by
      simp only [onInputFieldChanged]
      rw [if_neg hf]
    rw [hxeq, sub_self, abs_zero]
    norm_num

/- Claim theorems. -/

/-- Counterexample to claim C1 as stated: from the initial state, feeding the
text `"-1"` (which parses to the non-positive number `-1`) leaves `value`
unchanged, but the handler's `val > 0` guard has no else-branch, so the text
field keeps the typed text rather than being restored to the formatted
pre-call value. -/
theorem invalid_text_claim_false :
    ¬ ((onInputFieldChanged initState (some (-1))).x = initState.x ∧
       (onInputFieldChanged initState (some (-1))).fieldText =
         FieldText.formatted initState.x) := by
  intro h
  have h2 := h.2
  have hcond : ¬ ((0 : ℝ) < -1) := by norm_num
  simp only [onInputFieldChanged, hcond, if_false] at h2
  exact FieldText.noConfusion h2

/-- Claim C1 (amended): from every state the widget can reach, a non-numeric
input leaves `value` unchanged and overwrites the text field back to the
formatted pre-call `value`; an input that parses to a non-positive number
also leaves `value` unchanged (from any state), but the text field keeps the
typed text — it is not reverted. -/
theorem invalid_text_input_behavior :
    (∀ ops : List Op,
      (onInputFieldChanged (runOps ops) none).x = (runOps ops).x ∧
      (onInputFieldChanged (runOps ops) none).fieldText =
        FieldText.formatted (runOps ops).x) ∧
    (∀ (s : GuiState) (v : ℝ), v ≤ 0 →
      (onInputFieldChanged s (some v)).x = s.x ∧
      (onInputFieldChanged s (some v)).fieldText = FieldText.typed (some v)) := by
  constructor
  · intro ops
    have hcons : sliderConsistent (runOps ops) := runOps_consistent ops
    have hres : onInputFieldChanged (runOps ops) none =
        refreshTextAndLabel { runOps ops with fieldText := FieldText.typed none } := by
      simp only [onInputFieldChanged]
      exact updateUIValues_still _ hcons
    rw [hres]
    exact ⟨rfl, rfl⟩
  · intro s v hv
    have hcond : ¬ (0 < v) := not_lt.mpr hv
    simp only [onInputFieldChanged]
    rw [if_neg hcond]
    exact ⟨rfl, rfl⟩

/-- Witness for amended C1 at the typed text `"-1"`. -/
theorem invalid_text_input_behavior_witness :
    ((-1 : ℝ) ≤ 0) ∧
    (onInputFieldChanged testState (some (-1))).x = testState.x ∧
    (onInputFieldChanged testState (some (-1))).fieldText =
      FieldText.typed (some (-1)) := by
  have h := invalid_text_input_behavior.2 testState (-1) (by norm_num)
  exact ⟨by norm_num, h.1, h.2⟩

/-- Claim C2: after initialization `value > 0` holds along every sequence of
valid operations — even with the synchronous `valueChanged` re-entry, every
assignment to the value is a tick quotient `t / 10` with `t ≥ 1`, an accepted
positive parse, or `4π` — and an update attempt that would make `value`
non-positive is rejected with the prior value retained. -/
theorem value_positive_invariant :
    (∀ ops : List Op, (∀ op ∈ ops, op.valid) → 0 < (runOps ops).x) ∧
    (∀ (s : GuiState) (v : ℝ), v ≤ 0 → (onInputFieldChanged s (some v)).x = s.x) := by
  constructor
  · intro ops hv
    have h0 : 0 < initState.x := by rw [initState_x]; positivity
    exact foldl_applyOp_pos ops initState h0 hv
  · intro s v hv
    have hcond : ¬ (0 < v) := not_lt.mpr hv
    simp only [onInputFieldChanged]
    rw [if_neg hcond]

/-- Witness for C2 on the operation sequence slider-tick 1, text `"-3"`,
unparseable text, reset. -/
theorem value_positive_invariant_witness :
    0 < (runOps [Op.fromSlider 1, Op.fromText (some (-3)), Op.fromText none, Op.reset]).x := by
  apply value_positive_invariant.1
  intro op hop
  have hmax : (1 : ℤ) ≤ SLIDER_MAX := by rw [SLIDER_MAX_eq]; norm_num
  simp only [List.mem_cons, List.not_mem_nil, or_false] at hop
  rcases hop with rfl | rfl | rfl | rfl
  · exact ⟨le_refl 1, hmax⟩
  · exact trivial
  · exact trivial
  · exact trivial

/-- Claim C3: for every slider tick `t ∈ [1, SLIDER_MAX]`, `SetFromSlider(t)`
sets `value = t / SCALE`, the result label shows `sin(value)` (its argument
being the new value and its 4-decimal body the sine of the new value), and
the plot is regenerated over `[0, value]` (title bound, first and last
sample).  The refresh's own `setValue(t)` finds the slider already at `t`,
so no `valueChanged` re-entry occurs. -/
theorem slider_sets_value_and_label (s : GuiState) (t : ℤ)
    (h1 : 1 ≤ t) (h2 : t ≤ SLIDER_MAX) :
    (onSliderChanged s t).x = (t : ℝ) / SLIDER_SCALE_FACTOR ∧
    (onSliderChanged s t).labelArg = (onSliderChanged s t).x ∧
    (onSliderChanged s t).labelVal = Real.sin ((onSliderChanged s t).x) ∧
    (onSliderChanged s t).plot.titleUpper = (onSliderChanged s t).x ∧
    (onSliderChanged s t).plot.xs.getD 0 1 = 0 ∧
    (onSliderChanged s t).plot.xs.getD 999 1 = (onSliderChanged s t).x := by
  have hc : sliderSetValue (pyInt ((t : ℝ) / SLIDER_SCALE_FACTOR * SLIDER_SCALE_FACTOR)) = t := by
    rw [scale_div_mul, pyInt_intCast]
    exact sliderSetValue_of_mem h1 h2
  have hres : onSliderChanged s t =
      updatePlot (refreshTextAndLabel
        { s with x := (t : ℝ) / SLIDER_SCALE_FACTOR, sliderPos := t }) := by
    unfold onSliderChanged
    rw [updateUIValues_still _ hc]
  rw [hres]
  refine ⟨rfl, rfl, rfl, rfl, ?_, ?_⟩
  · show (linspace 0 ((t : ℝ) / SLIDER_SCALE_FACTOR) 1000).getD 0 1 = 0
    rw [linspace_getD 0 _ 1 1000 0 (by norm_num)]
    norm_num
  · show (linspace 0 ((t : ℝ) / SLIDER_SCALE_FACTOR) 1000).getD 999 1 =
      (t : ℝ) / SLIDER_SCALE_FACTOR
    rw [linspace_getD 0 _ 1 1000 999 (by norm_num)]
    norm_num

/-- Witness for C3 at tick 1: `SetFromSlider(1)` gives `value = 0.1`. -/
theorem slider_sets_value_and_label_witness :
    (1 : ℤ) ≤ 1 ∧ (1 : ℤ) ≤ SLIDER_MAX ∧
    (onSliderChanged testState 1).x = 0.1 ∧
    (onSliderChanged testState 1).plot.titleUpper = 0.1 := by
  have h2 : (1 : ℤ) ≤ SLIDER_MAX := by rw [SLIDER_MAX_eq]; norm_num
  have h := slider_sets_value_and_label testState 1 (le_refl 1) h2
  refine ⟨le_refl 1, h2, ?_, ?_⟩
  · rw [h.1]; norm_num [SLIDER_SCALE_FACTOR]
  · rw [h.2.2.2.1, h.1]; norm_num [SLIDER_SCALE_FACTOR]

/-- Claim C4, evaluated at its own concrete scenario: from the freshly
initialized widget (slider at tick 125), `SetFromText("6.28")` does **not**
end with `value = 6.28`.  The handler stores 6.28, but the refresh's
`setValue(62)` changes the slider position and synchronously re-enters
`_on_slider_changed(62)`, which overwrites the value with `62 / 10 = 6.2`;
the label consequently shows `sin(6.2)`, not `sin(6.28)`. -/
theorem text_628_snaps_to_tick :
    (onInputFieldChanged initState (some 6.28)).x = 6.2 ∧
    ((6.2 : ℝ) ≠ 6.28) ∧
    (onInputFieldChanged initState (some 6.28)).labelVal = Real.sin 6.2 := by
  have hc : ¬ sliderSetValue (pyInt ((6.28 : ℝ) * SLIDER_SCALE_FACTOR)) =
      ({ initState with fieldText := FieldText.typed (some (6.28 : ℝ)) } : GuiState).sliderPos := by
    rw [slider_628]
    rw [show ({ initState with fieldText := FieldText.typed (some (6.28 : ℝ)) }
        : GuiState).sliderPos = initState.sliderPos from rfl, init_sliderPos]
    norm_num
  refine ⟨?_, by norm_num, ?_⟩
  · simp only [onInputFieldChanged]
    rw [if_pos (by norm_num : (0 : ℝ) < 6.28)]
    rw [updatePlot_x, updateUIValues_x_fire _ hc]
    rw [slider_628, SLIDER_SCALE_FACTOR]
    norm_num
  · simp only [onInputFieldChanged]
    rw [if_pos (by norm_num : (0 : ℝ) < 6.28)]
    rw [updatePlot_labelVal, updateUIValues_labelVal, updateUIValues_x_fire _ hc]
    rw [slider_628, SLIDER_SCALE_FACTOR]
    congr 1
    push_cast
    norm_num

/-- Claim C5, evaluated at a failing input: after `SetFromSlider(10)` the
slider sits at tick 10, so `Reset()`'s refresh `setValue(125)` changes the
position and re-enters `_on_slider_changed(125)`, overwriting the just-
assigned default with `125 / 10 = 12.5`; the program ends with
`value = 12.5 ≠ 4π`. -/
theorem reset_overridden_by_slider_signal :
    (onResetClicked (runOps [Op.fromSlider 10])).x = 12.5 ∧
    (12.5 : ℝ) ≠ 4 * Real.pi := by
  refine ⟨reset_after_slider10_x, ?_⟩
  intro h
  have := Real.pi_gt_d6
  nlinarith

/-- Claim C6: for every `value > 0`, `RegeneratePlot` produces exactly 1000
samples, the `i`-th sample is `value * i / 999` (hence evenly spaced over
`[0, value]` with constant step `value / 999`), the plotted y-sequence is the
pointwise sine of the x-sequence, and the title's upper bound is `value`. -/
theorem update_plot_samples (s : GuiState) (hx : 0 < s.x) :
    (updatePlot s).plot.xs.length = 1000 ∧
    (∀ i : ℕ, i < 1000 → (updatePlot s).plot.xs.getD i 0 = s.x * (i : ℝ) / 999) ∧
    (∀ i : ℕ, i + 1 < 1000 →
      (updatePlot s).plot.xs.getD (i + 1) 0 - (updatePlot s).plot.xs.getD i 0 = s.x / 999) ∧
    (updatePlot s).plot.ys = (updatePlot s).plot.xs.map Real.sin ∧
    (updatePlot s).plot.titleUpper = s.x := by
  have hget : ∀ i : ℕ, i < 1000 →
      (updatePlot s).plot.xs.getD i 0 = s.x * (i : ℝ) / 999 := by
    intro i hi
    show (linspace 0 s.x 1000).getD i 0 = s.x * (i : ℝ) / 999
    rw [linspace_getD 0 s.x 0 1000 i hi]
    norm_num
  refine ⟨?_, hget, ?_, rfl, rfl⟩
  · exact linspace_length 0 s.x 1000
  · intro i hi
    rw [hget (i + 1) hi, hget i (by omega)]
    push_cast
    ring

/-- Witness for C6 at a state with `value = 1`. -/
theorem update_plot_samples_witness :
    (0 : ℝ) < testState.x ∧ (updatePlot testState).plot.xs.length = 1000 ∧
    (updatePlot testState).plot.xs.getD 999 0 = testState.x * 999 / 999 := by
  have hx : (0 : ℝ) < testState.x := by norm_num [testState]
  have h := update_plot_samples testState hx
  exact ⟨hx, h.1, h.2.1 999 (by norm_num)⟩

/-- Claim C7: from every state the widget can reach that has a positive
`value`, formatting it to two decimals and committing the resulting text
through the text-field handler leaves the stored value within `±0.005` of
the original.  Either the rounded value is rejected (non-positive) and the
original is kept; or it is accepted and no slider re-entry fires, giving the
rounded value itself (within half a unit in the last printed place); or the
slider re-entry fires, which from a reachable state can only move the tick
up by one, landing on `(⌊10·value⌋+1)/10`, still within 0.005 of the
original. -/
theorem roundtrip_two_decimals (ops : List Op) (hx : 0 < (runOps ops).x) :
    |(onInputFieldChanged (runOps ops) (some (format2dec (runOps ops).x))).x - (runOps ops).x|
      ≤ 0.005 :=
  roundtrip_aux (runOps ops) hx (runOps_consistent ops)

/-- Witness for C7 at the freshly initialized widget. -/
theorem roundtrip_two_decimals_witness :
    0 < (runOps []).x ∧
    |(onInputFieldChanged (runOps []) (some (format2dec (runOps []).x))).x - (runOps []).x|
      ≤ 0.005 := by
  have hx : 0 < (runOps []).x := by
    show 0 < initState.x
    rw [initState_x]
    positivity
  exact ⟨hx, roundtrip_two_decimals [] hx⟩

/-- Claim C8, evaluated at a failing input: after `SetFromSlider(10)`, the
first `Reset()` ends with `value = 12.5` (the refresh `setValue(125)`
re-enters `_on_slider_changed`), while the second `Reset()` ends with
`value = 4π` (the slider is already at 125, so its `setValue` emits
nothing).  The two states differ, so reset is not idempotent. -/
theorem reset_not_idempotent :
    onResetClicked (onResetClicked (runOps [Op.fromSlider 10])) ≠
      onResetClicked (runOps [Op.fromSlider 10]) := by
  intro he
  have hx := congrArg GuiState.x he
  rw [reset_twice_after_slider10_x, reset_after_slider10_x, X_MAX_DEFAULT] at hx
  have := Real.pi_gt_d6
  nlinarith

/-- Claim C9: for every `value > 0`, after a display refresh the last of the
1000 plot samples equals the refreshed state's own `value`, so the sine of
the curve's rightmost sample equals the `sin(value)` stored in the result
label, and equals the last plotted y-value. -/
theorem plot_endpoint_agrees_label (s : GuiState) (hx : 0 < s.x) :
    (updatePlot (updateUIValues s)).plot.xs.getD 999 0 = (updatePlot (updateUIValues s)).x ∧
    Real.sin ((updatePlot (updateUIValues s)).plot.xs.getD 999 0) =
      (updatePlot (updateUIValues s)).labelVal ∧
    (updatePlot (updateUIValues s)).plot.ys.getD 999 0 =
      (updatePlot (updateUIValues s)).labelVal := by
  have hlast : (updatePlot (updateUIValues s)).plot.xs.getD 999 0 = (updateUIValues s).x := by
    show (linspace 0 (updateUIValues s).x 1000).getD 999 0 = (updateUIValues s).x
    rw [linspace_getD 0 _ 0 1000 999 (by norm_num)]
    norm_num
  have hxeq : (updatePlot (updateUIValues s)).x = (updateUIValues s).x := rfl
  have hlab : (updatePlot (updateUIValues s)).labelVal = Real.sin ((updateUIValues s).x) := by
    rw [updatePlot_labelVal, updateUIValues_labelVal]
  refine ⟨by rw [hlast, hxeq], by rw [hlast, hlab], ?_⟩
  show ((linspace 0 (updateUIValues s).x 1000).map Real.sin).getD 999 0 = _
  rw [linspace_map_getD Real.sin 0 _ 0 1000 999 (by norm_num), hlab]
  norm_num

/-- Witness for C9 at a state with `value = 1`. -/
theorem plot_endpoint_agrees_label_witness :
    (0 : ℝ) < testState.x ∧
    (updatePlot (updateUIValues testState)).plot.xs.getD 999 0 =
      (updatePlot (updateUIValues testState)).x := by
  have hx : (0 : ℝ) < testState.x := by norm_num [testState]
  exact ⟨hx, (plot_endpoint_agrees_label testState hx).1⟩

/-- Claim C10: the display-refresh routine sets the slider position to
`int(value * SCALE)` (truncation toward zero, then range clamping): value
`6.28` maps to tick `62`, and value `6.29` also maps to tick `62` (not `63`,
which rounding to nearest would give). -/
theorem slider_position_truncation :
    (∀ s : GuiState,
        (updateUIValues s).sliderPos = sliderSetValue (pyInt (s.x * SLIDER_SCALE_FACTOR))) ∧
    pyInt ((6.28 : ℝ) * SLIDER_SCALE_FACTOR) = 62 ∧
    pyInt ((6.29 : ℝ) * SLIDER_SCALE_FACTOR) = 62 ∧
    round ((6.29 : ℝ) * SLIDER_SCALE_FACTOR) = 63 := by
  refine ⟨updateUIValues_sliderPos, pyInt_628, ?_, ?_⟩
  · rw [SLIDER_SCALE_FACTOR, pyInt_of_nonneg (by norm_num), Int.floor_eq_iff]
    norm_num
  · rw [SLIDER_SCALE_FACTOR, round_eq]
    norm_num

/-- Witness for C10 at `value = 1`. -/
theorem slider_position_truncation_witness :
    (updateUIValues testState).sliderPos =
      sliderSetValue (pyInt (testState.x * SLIDER_SCALE_FACTOR)) :=
  slider_position_truncation.1 testState
